import Mathlib

/-!
Verification of the date_utils repository (src/src/lib.rs).

The Rust code is shallowly embedded as follows:
- a Rust str is a list of UTF-8 bytes (Str := List Nat);
- time::Date, time::Time and time::OffsetDateTime are structures of
  integers; the civil-calendar arithmetic of the time crate (offset changes,
  Unix-timestamp conversion, ordering of instants on the UTC timeline) is
  modelled by the standard civil-from-days / days-from-civil algorithms over
  the proleptic Gregorian calendar;
- the ambient environment (the wall clock read by OffsetDateTime::now_utc
  and the host local-offset table read by UtcOffset::local_offset_at) is an
  explicit Env parameter;
- fallible Rust functions return Except DateTimeError _; the byte-slicing
  expressions of parse_response_string_to_datetime, which panic in Rust when
  an index is not a character boundary, are modelled by an outer Option
  where none marks a panic.
-/

namespace DateUtils

/-- A Rust string slice, as its UTF-8 byte sequence. -/
abbrev Str := List Nat

/-- Whether a byte is an ASCII digit. -/
def isDigit (b : Nat) : Bool := decide (48 ≤ b ∧ b ≤ 57)

/-- Numeric value of a digit byte sequence (meaningful when all bytes are ASCII digits). -/
def digitsVal (s : Str) : Int := s.foldl (fun a b => a * 10 + ((b : Int) - 48)) 0

/-- Core of Rust integer FromStr on the digit-only tail: nonempty, all digits,
signed value within the given inclusive bounds. Used for the u8 and i32 parses. -/
def parseDigitsIn (s : Str) (lo hi : Int) (sign : Int) : Option Int :=
  if s ≠ [] ∧ s.all isDigit then
    if lo ≤ sign * digitsVal s ∧ sign * digitsVal s ≤ hi then some (sign * digitsVal s)
    else none
  else none

/-- Rust str::parse to u8: optional leading plus sign, digits, value at most 255. -/
def parseU8 (s : Str) : Option Int :=
  match s with
  | [] => none
  | b :: rest =>
    if b = 43 then parseDigitsIn rest 0 255 1
    else parseDigitsIn (b :: rest) 0 255 1

/-- Rust str::parse to i32: optional sign, digits, value within the i32 range. -/
def parseI32 (s : Str) : Option Int :=
  match s with
  | [] => none
  | b :: rest =>
    if b = 43 then parseDigitsIn rest (-2147483648) 2147483647 1
    else if b = 45 then parseDigitsIn rest (-2147483648) 2147483647 (-1)
    else parseDigitsIn (b :: rest) (-2147483648) 2147483647 1

/-- Rust str::split_once with a single-byte (ASCII) pattern: split at the
first occurrence of the byte, neither part containing the separator itself. -/
def splitOnce (s : Str) (c : Nat) : Option (Str × Str) :=
  match s with
  | [] => none
  | b :: rest =>
    if b = c then some ([], rest)
    else (splitOnce rest c).map fun p => (b :: p.1, p.2)

/-- Rust str::is_char_boundary: index 0, the length, or a byte that is not a
UTF-8 continuation byte. -/
def isCharBoundary (s : Str) (i : Nat) : Bool :=
  if i = 0 then true
  else
    match s.get? i with
    | none => decide (i = s.length)
    | some b => decide (b < 128 ∨ 192 ≤ b)

/-- Rust byte-range slicing of a str: returns none (a panic) when either index
is not a character boundary. -/
def strSlice (s : Str) (a b : Nat) : Option Str :=
  if a ≤ b ∧ isCharBoundary s a ∧ isCharBoundary s b then
    some ((s.drop a).take (b - a))
  else none

/-- Proleptic Gregorian leap-year test, as used by the time crate. -/
def isLeap (y : Int) : Bool :=
  decide (y % 4 = 0 ∧ (y % 100 ≠ 0 ∨ y % 400 = 0))

/-- Number of days of a month in a given year. -/
def daysInMonth (y : Int) (m : Int) : Int :=
  if m = 2 then (if isLeap y then 29 else 28)
  else if m = 4 ∨ m = 6 ∨ m = 9 ∨ m = 11 then 30
  else 31

/-- Model of time::Date: a calendar date. -/
structure Date where
  year : Int
  month : Int
  day : Int
deriving DecidableEq, Repr

/-- Model of time::Date::from_calendar_date: fails outside the year range
-9999..=9999, the month range 1..=12, or the day range for the month and year. -/
def Date.fromCalendarDate (y m d : Int) : Option Date :=
  if -9999 ≤ y ∧ y ≤ 9999 ∧ 1 ≤ m ∧ m ≤ 12 ∧ 1 ≤ d ∧ d ≤ daysInMonth y m then
    some ⟨y, m, d⟩
  else none

/-- Century within the 400-year era, recovered from the day of era. -/
def centuryOfDoe (doe : Int) : Int := (4 * doe + 3) / 146097

/-- Day within the century, from the day of era. -/
def docOfDoe (doe : Int) : Int := doe - 36524 * centuryOfDoe doe

/-- Year within the century, recovered from the day of century. -/
def ycOfDoc (doc : Int) : Int := (4 * doc + 3) / 1461

/-- Day of year (March-based) from the day of century. -/
def doyOfDoc (doc : Int) : Int := doc - (365 * ycOfDoc doc + ycOfDoc doc / 4)

/-- Year of era within the 400-year cycle, recovered from the day of era. -/
def yoeOfDoe (doe : Int) : Int :=
  100 * centuryOfDoe doe + ycOfDoc (docOfDoe doe)

/-- Day of year (March-based) recovered from the day of era. -/
def doyOfDoe (doe : Int) : Int := doyOfDoc (docOfDoe doe)

/-- March-based month index 0..=11 from the day of year. -/
def mpOfDoy (doy : Int) : Int := (5 * doy + 2) / 153

/-- Day number since 1970-01-01 to calendar date (the classical
days-to-civil-date computation over the 400-year cycle), modelling the
civil-calendar arithmetic of the time crate. -/
def civilFromDays (z : Int) : Date :=
  let era := (z + 719468) / 146097
  let doe := (z + 719468) % 146097
  let yoe := yoeOfDoe doe
  let doy := doyOfDoe doe
  let mp := mpOfDoy doy
  let dd := doy - (153 * mp + 2) / 5 + 1
  let mm := if mp < 10 then mp + 3 else mp - 9
  ⟨(if mm ≤ 2 then yoe + era * 400 + 1 else yoe + era * 400), mm, dd⟩

/-- Calendar date to day number since 1970-01-01 (the days-from-civil algorithm). -/
def daysFromCivil (d : Date) : Int :=
  let yy := if d.month ≤ 2 then d.year - 1 else d.year
  let era := yy / 400
  let yoe := yy - era * 400
  let mp := if d.month > 2 then d.month - 3 else d.month + 9
  let doy := (153 * mp + 2) / 5 + d.day - 1
  let doe := yoe * 365 + yoe / 4 - yoe / 100 + doy
  era * 146097 + doe - 719468

/-- Model of time::Time: a time of day with nanosecond precision. -/
structure Time where
  hour : Int
  minute : Int
  second : Int
  nanos : Int
deriving DecidableEq, Repr

/-- The constant Time::MIDNIGHT. -/
def Time.midnight : Time := ⟨0, 0, 0, 0⟩

/-- The constant Time::MAX, the value 23:59:59.999999999. -/
def Time.maxTime : Time := ⟨23, 59, 59, 999999999⟩

/-- Model of time::OffsetDateTime: civil date and time fields together with
the attached UTC offset in seconds. -/
structure OffsetDateTime where
  date : Date
  time : Time
  offset : Int
deriving DecidableEq, Repr

/-- Seconds since the start of the day of a Time value. -/
def secondsOfDay (t : Time) : Int := t.hour * 3600 + t.minute * 60 + t.second

/-- Position of an OffsetDateTime on the UTC timeline, in nanoseconds since
the Unix epoch. Comparison of OffsetDateTime values in the time crate compares
exactly this quantity. -/
def utcNanos (dt : OffsetDateTime) : Int :=
  (daysFromCivil dt.date * 86400 + secondsOfDay dt.time) * 1000000000
    + dt.time.nanos - dt.offset * 1000000000

/-- Build the OffsetDateTime with the given offset whose position on the UTC
timeline is the given nanosecond count. -/
def ofUtcNanos (n off : Int) : OffsetDateTime :=
  let loc := n + off * 1000000000
  let day := loc / 86400000000000
  let nod := loc % 86400000000000
  let secs := nod / 1000000000
  { date := civilFromDays day
    time := { hour := secs / 3600, minute := (secs / 60) % 60,
              second := secs % 60, nanos := nod % 1000000000 }
    offset := off }

/-- Model of OffsetDateTime::to_offset: same instant, fields recomputed in the
new offset. -/
def toOffset (dt : OffsetDateTime) (off : Int) : OffsetDateTime :=
  ofUtcNanos (utcNanos dt) off

theorem century_doc_bounds (doe : Int) (h0 : 0 ≤ doe) (h1 : doe ≤ 146096) :
    0 ≤ centuryOfDoe doe ∧ centuryOfDoe doe ≤ 3
      ∧ 0 ≤ docOfDoe doe ∧ docOfDoe doe ≤ 36524 := by
  unfold docOfDoe centuryOfDoe
  omega

theorem yc_doy_bounds (doc : Int) (h0 : 0 ≤ doc) (h1 : doc ≤ 36524) :
    0 ≤ ycOfDoc doc ∧ ycOfDoc doc ≤ 99
      ∧ 0 ≤ doyOfDoc doc ∧ doyOfDoc doc ≤ 365 := by
  unfold doyOfDoc ycOfDoc
  omega

theorem yoeOfDoe_bounds (doe : Int) (h0 : 0 ≤ doe) (h1 : doe ≤ 146096) :
    0 ≤ yoeOfDoe doe ∧ yoeOfDoe doe ≤ 399 := by
  have hc := century_doc_bounds doe h0 h1
  have hy := yc_doy_bounds (docOfDoe doe) hc.2.2.1 hc.2.2.2
  unfold yoeOfDoe
  omega

theorem doyOfDoe_bounds (doe : Int) (h0 : 0 ≤ doe) (h1 : doe ≤ 146096) :
    0 ≤ doyOfDoe doe ∧ doyOfDoe doe ≤ 365 := by
  have hc := century_doc_bounds doe h0 h1
  have hy := yc_doy_bounds (docOfDoe doe) hc.2.2.1 hc.2.2.2
  unfold doyOfDoe
  omega

theorem startOfYear_eq (doe : Int) (h0 : 0 ≤ doe) (h1 : doe ≤ 146096) :
    365 * yoeOfDoe doe + yoeOfDoe doe / 4 - yoeOfDoe doe / 100 + doyOfDoe doe = doe := by
  have hc := century_doc_bounds doe h0 h1
  have hy := yc_doy_bounds (docOfDoe doe) hc.2.2.1 hc.2.2.2
  have h4 : (100 * centuryOfDoe doe + ycOfDoc (docOfDoe doe)) / 4
      = 25 * centuryOfDoe doe + ycOfDoc (docOfDoe doe) / 4 := by omega
  have h100 : (100 * centuryOfDoe doe + ycOfDoc (docOfDoe doe)) / 100
      = centuryOfDoe doe := by omega
  have hdoc : docOfDoe doe = doe - 36524 * centuryOfDoe doe := rfl
  have hdoy : doyOfDoe doe
      = docOfDoe doe - (365 * ycOfDoc (docOfDoe doe) + ycOfDoc (docOfDoe doe) / 4) := rfl
  unfold yoeOfDoe
  omega

theorem ediv400_recover (yoe era : Int) (h0 : 0 ≤ yoe) (h1 : yoe ≤ 399) :
    (yoe + era * 400) / 400 = era := by
  omega

/-- Key fact about the civil-calendar model: converting a day number to a
calendar date and back is the identity. -/
theorem daysFromCivil_civilFromDays (z : Int) : daysFromCivil (civilFromDays z) = z := by
  have hdoe0 : 0 ≤ (z + 719468) % 146097 :=
    Int.emod_nonneg _ (by norm_num : (146097 : Int) ≠ 0)
  have hdoe1 : (z + 719468) % 146097 < 146097 :=
    Int.emod_lt_of_pos _ (by norm_num : (0 : Int) < 146097)
  have heradoe := Int.ediv_add_emod (z + 719468) 146097
  set era := (z + 719468) / 146097 with hera
  set doe := (z + 719468) % 146097 with hdoeDef
  have hyoe := yoeOfDoe_bounds doe hdoe0 (by omega)
  have hdoy := doyOfDoe_bounds doe hdoe0 (by omega)
  have hsoy := startOfYear_eq doe hdoe0 (by omega)
  set yoe := yoeOfDoe doe with hyoeDef
  set doy := doyOfDoe doe with hdoyDef
  have hmpb : 0 ≤ mpOfDoy doy ∧ mpOfDoy doy ≤ 11 := by
    unfold mpOfDoy
    omega
  set mp := mpOfDoy doy with hmpDef
  set t := (153 * mp + 2) / 5 with htDef
  have hcfd : civilFromDays z
      = ⟨(if (if mp < 10 then mp + 3 else mp - 9) ≤ 2 then yoe + era * 400 + 1
          else yoe + era * 400),
         (if mp < 10 then mp + 3 else mp - 9), doy - t + 1⟩ := rfl
  rw [hcfd]
  rcases lt_or_ge mp 10 with hmlt | hmge
  · rw [if_pos hmlt, if_neg (show ¬ (mp + 3 ≤ 2) by omega)]
    simp only [daysFromCivil]
    rw [if_neg (show ¬ (mp + 3 ≤ 2) by omega), if_pos (show mp + 3 > 2 by omega)]
    rw [ediv400_recover yoe era hyoe.1 hyoe.2]
    rw [show yoe + era * 400 - era * 400 = yoe by ring]
    rw [show mp + 3 - 3 = mp by ring, ← htDef]
    omega
  · rw [if_neg (show ¬ mp < 10 by omega), if_pos (show mp - 9 ≤ 2 by omega)]
    simp only [daysFromCivil]
    rw [if_pos (show mp - 9 ≤ 2 by omega), if_neg (show ¬ mp - 9 > 2 by omega)]
    rw [show yoe + era * 400 + 1 - 1 = yoe + era * 400 by ring]
    rw [ediv400_recover yoe era hyoe.1 hyoe.2]
    rw [show yoe + era * 400 - era * 400 = yoe by ring]
    rw [show mp - 9 + 9 = mp by ring, ← htDef]
    omega

theorem utcNanos_ofUtcNanos (n off : Int) : utcNanos (ofUtcNanos n off) = n := by
  simp only [ofUtcNanos, utcNanos, secondsOfDay]
  rw [daysFromCivil_civilFromDays]
  omega

theorem utcNanos_toOffset (dt : OffsetDateTime) (off : Int) :
    utcNanos (toOffset dt off) = utcNanos dt :=
  utcNanos_ofUtcNanos _ _

/-- Distinguishes the sources of the DateTimeError::ParseError variant, which
in the Rust code carries a diagnostic string: the From conversion of a
time::error::IndeterminateOffset, the message of a component-range error of
Date::from_calendar_date, and the catch-all unsupported-format message that
embeds the input. -/
inductive PEMsg where
  | indeterminateOffset
  | componentRange
  | unsupported (s : Str)
deriving DecidableEq, Repr

/-- Model of the DateTimeError enum; purely diagnostic string payloads are
replaced by the values they are rendered from. -/
inductive DateTimeError where
  | invalidDateFormat (s : Str)
  | invalidTimestamp (ts : Int)
  | invalidDateTimeFormat (s : Str)
  | invalidTimeComponent (q : Int)
  | dateInFuture (dt : OffsetDateTime) (now : OffsetDateTime)
  | invalidOffset (secs : Int)
  | parseError (m : PEMsg)
deriving DecidableEq, Repr

/-- The ambient environment: the current UTC wall clock in nanoseconds since
the Unix epoch (read by OffsetDateTime::now_utc) and the host local-offset
lookup (UtcOffset::local_offset_at), which receives an instant on the UTC
timeline and may fail with an indeterminate-offset error. -/
structure Env where
  now : Int
  localOff : Int → Option Int

/-- The DateType enum of the source. -/
inductive DateType where
  | Start
  | End
deriving DecidableEq, Repr

/-- The OffsetType enum of the source. -/
inductive OffsetType where
  | Local
  | Utc
deriving DecidableEq, Repr

/-- Model of time::Date::parse with the format description
year-month-day: an optional sign followed by exactly six year digits, or
exactly four year digits with no sign; a hyphen; exactly two month digits
converted through Month::try_from (range 1..=12); a hyphen; exactly two
day digits (nonzero); nothing else; then the calendar validation of the
conversion from Parsed to Date. All failures collapse to none, which
parse_to_datetime maps to the InvalidDateFormat error. -/
def dateParse (s : Str) : Option Date :=
  match s with
  | [43, a, b, c, d, e, f, 45, m1, m2, 45, d1, d2] =>
    if ([a, b, c, d, e, f, m1, m2, d1, d2] : Str).all isDigit
        ∧ 1 ≤ digitsVal [d1, d2] then
      if 1 ≤ digitsVal [m1, m2] ∧ digitsVal [m1, m2] ≤ 12 then
        Date.fromCalendarDate (digitsVal [a, b, c, d, e, f]) (digitsVal [m1, m2])
          (digitsVal [d1, d2])
      else none
    else none
  | [45, a, b, c, d, e, f, 45, m1, m2, 45, d1, d2] =>
    if ([a, b, c, d, e, f, m1, m2, d1, d2] : Str).all isDigit
        ∧ 1 ≤ digitsVal [d1, d2] then
      if 1 ≤ digitsVal [m1, m2] ∧ digitsVal [m1, m2] ≤ 12 then
        Date.fromCalendarDate (-digitsVal [a, b, c, d, e, f]) (digitsVal [m1, m2])
          (digitsVal [d1, d2])
      else none
    else none
  | [a, b, c, d, 45, m1, m2, 45, d1, d2] =>
    if ([a, b, c, d, m1, m2, d1, d2] : Str).all isDigit
        ∧ 1 ≤ digitsVal [d1, d2] then
      if 1 ≤ digitsVal [m1, m2] ∧ digitsVal [m1, m2] ≤ 12 then
        Date.fromCalendarDate (digitsVal [a, b, c, d]) (digitsVal [m1, m2])
          (digitsVal [d1, d2])
      else none
    else none
  | _ => none

/-- Model of the private validate_not_in_future: compares the resolved
instant with the current UTC instant on the UTC timeline. -/
def validate_not_in_future (dt : OffsetDateTime) (now : Int) :
    Except DateTimeError Unit :=
  if utcNanos dt > now then .error (.dateInFuture dt (ofUtcNanos now 0))
  else .ok ()

/-- Model of the public parse_to_datetime: parse the full date, expand it to
the start or end of the day, attach the UTC or the host local offset, and
reject instants after the current wall clock. -/
def parse_to_datetime (s : Str) (dty : DateType) (oty : OffsetType) (env : Env) :
    Except DateTimeError OffsetDateTime :=
  match dateParse s with
  | none => .error (.invalidDateFormat s)
  | some d =>
    let pd : OffsetDateTime :=
      match dty with
      | .Start => ⟨d, Time.midnight, 0⟩
      | .End => ⟨d, Time.maxTime, 0⟩
    match oty with
    | .Utc =>
      match validate_not_in_future pd env.now with
      | .error e => .error e
      | .ok _ => .ok pd
    | .Local =>
      match env.localOff (utcNanos pd) with
      | none => .error (.parseError .indeterminateOffset)
      | some o =>
        let r := toOffset pd o
        match validate_not_in_future r env.now with
        | .error e => .error e
        | .ok _ => .ok r

/-- Model of OffsetDateTime::from_unix_timestamp: succeeds exactly on the
representable range from -9999-01-01T00:00:00Z to 9999-12-31T23:59:59Z. -/
def from_unix_timestamp (ts : Int) : Option OffsetDateTime :=
  if -377705116800 ≤ ts ∧ ts ≤ 253402300799 then
    some (ofUtcNanos (ts * 1000000000) 0)
  else none

/-- Model of the public timestamp_to_datetime. -/
def timestamp_to_datetime (ts : Int) (oty : OffsetType) (env : Env) :
    Except DateTimeError OffsetDateTime :=
  match from_unix_timestamp ts with
  | none => .error (.invalidTimestamp ts)
  | some dt0 =>
    let dt := toOffset dt0 0
    match oty with
    | .Utc => .ok dt
    | .Local =>
      match env.localOff (utcNanos dt) with
      | none => .error (.parseError .indeterminateOffset)
      | some o => .ok (toOffset dt o)

/-- Model of the public datetime_to_date: projects out the date component. -/
def datetime_to_date (dt : OffsetDateTime) : Except DateTimeError Date :=
  .ok dt.date

/-- Model of the public timestamp_to_offset: UtcOffset::from_whole_seconds
accepts magnitudes up to 25:59:59, that is 93599 seconds. -/
def timestamp_to_offset (secs : Int) : Except DateTimeError Int :=
  if -93599 ≤ secs ∧ secs ≤ 93599 then .ok secs
  else .error (.invalidOffset secs)

/-- The year-month arm of parse_response_string_to_datetime, entered when
both the year and the month substrings parse: Month::try_from validates the
range 1..=12 (failure mapped to InvalidDateFormat), then
Date::from_calendar_date with day 1 (failure mapped to ParseError), then
midnight, assumed UTC. -/
def ymBranch (s : Str) (y m : Int) : Except DateTimeError OffsetDateTime :=
  if 1 ≤ m ∧ m ≤ 12 then
    match Date.fromCalendarDate y m 1 with
    | none => .error (.parseError .componentRange)
    | some d => .ok ⟨d, Time.midnight, 0⟩
  else .error (.invalidDateFormat s)

/-- Shared tail of the quarter arm: build day 1 of the starting month of the
quarter at midnight, assumed UTC. -/
def quarterDate (y m : Int) : Option (Except DateTimeError OffsetDateTime) :=
  match Date.fromCalendarDate y m 1 with
  | none => some (.error (.parseError .componentRange))
  | some d => some (.ok ⟨d, Time.midnight, 0⟩)

/-- The mapping of a quarter number to the first month of the quarter. -/
def quarterStartMonth (q : Int) : Int :=
  if q = 1 then 1
  else if q = 2 then 4
  else if q = 3 then 7
  else if q = 4 then 10
  else 0

/-- The quarter arm of parse_response_string_to_datetime: byte length exactly
7 and the literal Q at byte 5, then the year from bytes 0..4 as an i32, the
quarter from byte 6 as a u8, the quarter-to-month match with its
InvalidTimeComponent default, and Date::from_calendar_date. The byte slices
panic (none) when an index is not a character boundary. -/
def quarterBranch (s : Str) : Option (Except DateTimeError OffsetDateTime) :=
  if s.length = 7 then
    match strSlice s 5 6 with
    | none => none
    | some q5 =>
      if q5 = [81] then
        match strSlice s 0 4 with
        | none => none
        | some ys =>
          match parseI32 ys with
          | none => some (.error (.invalidDateFormat s))
          | some y =>
            match strSlice s 6 7 with
            | none => none
            | some qs =>
              match parseU8 qs with
              | none => some (.error (.invalidDateFormat s))
              | some q =>
                if q = 1 then quarterDate y 1
                else if q = 2 then quarterDate y 4
                else if q = 3 then quarterDate y 7
                else if q = 4 then quarterDate y 10
                else some (.error (.invalidTimeComponent q))
      else some (.error (.parseError (.unsupported s)))
  else some (.error (.parseError (.unsupported s)))

/-- The part of parse_response_string_to_datetime after the full-date branch
has failed: the year-month arm guarded by the split at the first hyphen and
the two component parses, then the quarter arm, then the catch-all error.
This part of the source never mentions the offset argument. -/
def afterFullDate (s : Str) : Option (Except DateTimeError OffsetDateTime) :=
  match splitOnce s 45 with
  | some (ys, ms) =>
    match parseI32 ys, parseU8 ms with
    | some y, some m => some (ymBranch s y m)
    | _, _ => quarterBranch s
  | none => quarterBranch s

/-- Model of the public parse_response_string_to_datetime: try the full date
(with End boundary and the future guard of parse_to_datetime); on any failure
fall through to the year-month and quarter grammars. The outer Option marks a
panic of the byte slicing in the quarter arm. -/
def parse_response_string_to_datetime (s : Str) (oty : OffsetType) (env : Env) :
    Option (Except DateTimeError OffsetDateTime) :=
  match parse_to_datetime s .End oty env with
  | .ok d => some (.ok d)
  | .error _ => afterFullDate s

deriving instance DecidableEq for Except

/-! Concrete fixtures: sample environments (wall clock in nanoseconds since
the epoch, local-offset lookup) and inputs as byte strings. -/

/-- Environment with the clock at 2033-05-18T03:33:20Z and no resolvable
local offset. -/
def envNone : Env := ⟨2000000000000000000, fun _ => none⟩

/-- Environment with the clock at 2023-11-14T22:13:20Z and no resolvable
local offset. -/
def envPast : Env := ⟨1700000000000000000, fun _ => none⟩

/-- Environment with the clock at 2033-05-18T03:33:20Z and a constant local
offset of -18000 seconds (UTC-5). -/
def envM5 : Env := ⟨2000000000000000000, fun _ => some (-18000)⟩

/-- Environment with the clock at 2033-05-18T03:33:20Z and a constant local
offset of -3600 seconds (UTC-1). -/
def envM1 : Env := ⟨2000000000000000000, fun _ => some (-3600)⟩

/-- The bytes of the string 2030-01-15. -/
def sFut : Str := [50, 48, 51, 48, 45, 48, 49, 45, 49, 53]

/-- The bytes of the string 2025-02-30. -/
def sFeb30 : Str := [50, 48, 50, 53, 45, 48, 50, 45, 51, 48]

/-- The bytes of the 7-byte string consisting of 2024- followed by the
two-byte UTF-8 encoding (0xC3 0xA9) of the letter e with acute accent. -/
def sNonAscii : Str := [50, 48, 50, 52, 45, 195, 169]

/-- The bytes of the string 2024xQ2. -/
def sQx : Str := [50, 48, 50, 52, 120, 81, 50]

/-- The bytes of the string 2024-Q2. -/
def sQ2 : Str := [50, 48, 50, 52, 45, 81, 50]

/-- The bytes of the string 2024-Q5. -/
def sQ5 : Str := [50, 48, 50, 52, 45, 81, 53]

/-- The bytes of the string 2024-13. -/
def sYm13 : Str := [50, 48, 50, 52, 45, 49, 51]

/-- The bytes of the string 2024-05. -/
def sYm05 : Str := [50, 48, 50, 52, 45, 48, 53]

/-- The bytes of the string 2020-01-05. -/
def sJan5 : Str := [50, 48, 50, 48, 45, 48, 49, 45, 48, 53]

/-! Helper lemmas about the parsing primitives on strings of the full-date
shape, used to trace the fall-through of parse_response_string_to_datetime. -/

theorem isDigit_ne_hyphen {b : Nat} (h : isDigit b = true) : b ≠ 45 := by
  simp only [isDigit, decide_eq_true_eq] at h
  omega

theorem isDigit_ne_plus {b : Nat} (h : isDigit b = true) : b ≠ 43 := by
  simp only [isDigit, decide_eq_true_eq] at h
  omega

theorem splitOnce_fullDateShape (y1 y2 y3 y4 m1 m2 d1 d2 : Nat)
    (h1 : isDigit y1 = true) (h2 : isDigit y2 = true)
    (h3 : isDigit y3 = true) (h4 : isDigit y4 = true) :
    splitOnce [y1, y2, y3, y4, 45, m1, m2, 45, d1, d2] 45
      = some ([y1, y2, y3, y4], [m1, m2, 45, d1, d2]) := by
  simp [splitOnce, isDigit_ne_hyphen h1, isDigit_ne_hyphen h2,
    isDigit_ne_hyphen h3, isDigit_ne_hyphen h4]

theorem parseU8_monthDayRest (m1 m2 d1 d2 : Nat) (h : isDigit m1 = true) :
    parseU8 [m1, m2, 45, d1, d2] = none := by
  simp only [parseU8, if_neg (isDigit_ne_plus h)]
  simp [parseDigitsIn, isDigit]

/-- On a ten-byte digits-hyphen-digits-hyphen-digits string, any failure of
the full-date branch makes parse_response_string_to_datetime fall through the
year-month arm (the month substring contains the second hyphen and is not a
u8) and the quarter arm (the length is 10, not 7) into the catch-all
unsupported-format error. -/
theorem fullDateShape_fallthrough (y1 y2 y3 y4 m1 m2 d1 d2 : Nat)
    (oty : OffsetType) (env : Env) (e : DateTimeError)
    (h1 : isDigit y1 = true) (h2 : isDigit y2 = true)
    (h3 : isDigit y3 = true) (h4 : isDigit y4 = true)
    (h5 : isDigit m1 = true)
    (he : parse_to_datetime [y1, y2, y3, y4, 45, m1, m2, 45, d1, d2] .End oty env
      = .error e) :
    parse_response_string_to_datetime [y1, y2, y3, y4, 45, m1, m2, 45, d1, d2] oty env
      = some (.error (.parseError
          (.unsupported [y1, y2, y3, y4, 45, m1, m2, 45, d1, d2]))) := by
  unfold parse_response_string_to_datetime
  rw [he]
  unfold afterFullDate
  rw [splitOnce_fullDateShape y1 y2 y3 y4 m1 m2 d1 d2 h1 h2 h3 h4]
  dsimp only
  rw [parseU8_monthDayRest m1 m2 d1 d2 h5]
  cases hy : parseI32 [y1, y2, y3, y4] <;> simp [quarterBranch]

/-- Once the full-date branch has failed, if the year-month guard does not
match (no hyphen, or one of the two component parses fails), the remaining
computation is the quarter arm. -/
theorem afterFullDate_eq_quarterBranch (s : Str)
    (hym : ∀ ys ms, splitOnce s 45 = some (ys, ms)
      → parseI32 ys = none ∨ parseU8 ms = none) :
    afterFullDate s = quarterBranch s := by
  unfold afterFullDate
  cases hsp : splitOnce s 45 with
  | none => rfl
  | some p =>
    obtain ⟨ys, ms⟩ := p
    dsimp only
    rcases hym ys ms hsp with h | h
    · rw [h]
    · rw [h]
      cases parseI32 ys <;> rfl

theorem fromCalendarDate_some (y m d : Int) (dd : Date)
    (h : Date.fromCalendarDate y m d = some dd) :
    dd = ⟨y, m, d⟩ ∧ -9999 ≤ y ∧ y ≤ 9999 ∧ 1 ≤ m ∧ m ≤ 12
      ∧ 1 ≤ d ∧ d ≤ daysInMonth y m := by
  unfold Date.fromCalendarDate at h
  split at h
  · exact ⟨(Option.some.inj h).symm, by assumption⟩
  · exact Option.noConfusion h

theorem validate_ok_le (dt : OffsetDateTime) (now : Int) (u : Unit)
    (h : validate_not_in_future dt now = .ok u) : utcNanos dt ≤ now := by
  unfold validate_not_in_future at h
  by_cases hc : utcNanos dt > now
  · rw [if_pos hc] at h
    exact Except.noConfusion h
  · omega

theorem ymBranch_ok (s : Str) (y m : Int) (dt : OffsetDateTime)
    (h : ymBranch s y m = .ok dt) :
    dt.date.year = y ∧ dt.date.month = m ∧ dt.date.day = 1
      ∧ dt.time = Time.midnight ∧ dt.offset = 0 ∧ 1 ≤ m ∧ m ≤ 12 := by
  unfold ymBranch at h
  split at h
  · split at h
    · exact Except.noConfusion h
    · rename_i d hd
      have hdd := fromCalendarDate_some y m 1 d hd
      have := Except.ok.inj h
      subst this
      rw [hdd.1]
      exact ⟨rfl, rfl, rfl, rfl, rfl, hdd.2.2.2.1, hdd.2.2.2.2.1⟩
  · exact Except.noConfusion h

theorem quarterDate_ok (y m : Int) (dt : OffsetDateTime)
    (h : quarterDate y m = some (.ok dt)) :
    dt.date.year = y ∧ dt.date.month = m ∧ dt.date.day = 1
      ∧ dt.time = Time.midnight ∧ dt.offset = 0 := by
  unfold quarterDate at h
  split at h
  · exact Except.noConfusion (Option.some.inj h)
  · rename_i d hd
    have hdd := fromCalendarDate_some y m 1 d hd
    have := Except.ok.inj (Option.some.inj h)
    subst this
    rw [hdd.1]
    exact ⟨rfl, rfl, rfl, rfl, rfl⟩

/-- Full characterization of a successful run of the quarter arm: the length
and the literal Q are checked, the year bytes parse as an i32, the quarter
byte parses as a u8 in the range 1..=4, and the result is day 1 of the
starting month of the quarter at midnight with a zero offset. -/
theorem quarterBranch_ok (s : Str) (dt : OffsetDateTime)
    (h : quarterBranch s = some (.ok dt)) :
    s.length = 7
      ∧ strSlice s 5 6 = some [81]
      ∧ (∃ ys, strSlice s 0 4 = some ys ∧ parseI32 ys = some dt.date.year)
      ∧ (∃ qs q, strSlice s 6 7 = some qs ∧ parseU8 qs = some q
          ∧ 1 ≤ q ∧ q ≤ 4 ∧ dt.date.month = quarterStartMonth q)
      ∧ dt.date.day = 1 ∧ dt.time = Time.midnight ∧ dt.offset = 0 := by
  unfold quarterBranch at h
  split at h
  case isFalse => exact Except.noConfusion (Option.some.inj h)
  case isTrue hlen =>
  split at h
  case h_1 => exact Option.noConfusion h
  case h_2 q5 hq5 =>
  split at h
  case isFalse => exact Except.noConfusion (Option.some.inj h)
  case isTrue hq =>
  split at h
  case h_1 => exact Option.noConfusion h
  case h_2 ys hys =>
  split at h
  case h_1 => exact Except.noConfusion (Option.some.inj h)
  case h_2 y hy =>
  split at h
  case h_1 => exact Option.noConfusion h
  case h_2 qs hqs =>
  split at h
  case h_1 => exact Except.noConfusion (Option.some.inj h)
  case h_2 q hqv =>
  by_cases hv1 : q = 1
  · rw [if_pos hv1] at h
    have hd := quarterDate_ok y 1 dt h
    refine ⟨hlen, hq ▸ hq5, ⟨ys, hys, by rw [hd.1]; exact hy⟩,
      ⟨qs, q, hqs, hqv, by omega, by omega, ?_⟩,
      hd.2.2.1, hd.2.2.2.1, hd.2.2.2.2⟩
    rw [hd.2.1, hv1]
    rfl
  · rw [if_neg hv1] at h
    by_cases hv2 : q = 2
    · rw [if_pos hv2] at h
      have hd := quarterDate_ok y 4 dt h
      refine ⟨hlen, hq ▸ hq5, ⟨ys, hys, by rw [hd.1]; exact hy⟩,
        ⟨qs, q, hqs, hqv, by omega, by omega, ?_⟩,
        hd.2.2.1, hd.2.2.2.1, hd.2.2.2.2⟩
      rw [hd.2.1, hv2]
      rfl
    · rw [if_neg hv2] at h
      by_cases hv3 : q = 3
      · rw [if_pos hv3] at h
        have hd := quarterDate_ok y 7 dt h
        refine ⟨hlen, hq ▸ hq5, ⟨ys, hys, by rw [hd.1]; exact hy⟩,
          ⟨qs, q, hqs, hqv, by omega, by omega, ?_⟩,
          hd.2.2.1, hd.2.2.2.1, hd.2.2.2.2⟩
        rw [hd.2.1, hv3]
        rfl
      · rw [if_neg hv3] at h
        by_cases hv4 : q = 4
        · rw [if_pos hv4] at h
          have hd := quarterDate_ok y 10 dt h
          refine ⟨hlen, hq ▸ hq5, ⟨ys, hys, by rw [hd.1]; exact hy⟩,
            ⟨qs, q, hqs, hqv, by omega, by omega, ?_⟩,
            hd.2.2.1, hd.2.2.2.1, hd.2.2.2.2⟩
          rw [hd.2.1, hv4]
          rfl
        · rw [if_neg hv4] at h
          exact Except.noConfusion (Option.some.inj h)

/-- A successful result of the part after the full-date branch always carries
a zero offset. -/
theorem afterFullDate_ok_offset (s : Str) (dt : OffsetDateTime)
    (h : afterFullDate s = some (.ok dt)) : dt.offset = 0 := by
  unfold afterFullDate at h
  split at h
  case h_1 ys ms hsp =>
    split at h
    case h_1 y m hy hm => exact (ymBranch_ok s y m dt (Option.some.inj h)).2.2.2.2.1
    case h_2 => exact (quarterBranch_ok s dt h).2.2.2.2.2.2
  case h_2 => exact (quarterBranch_ok s dt h).2.2.2.2.2.2

/-! Claim theorems. -/

/-- Claim C1, counterexample: with the wall clock at 2023-11-14T22:13:20Z,
the input 2030-01-15 is a syntactically valid full date whose instant lies
strictly after the clock, yet parse_period does not parse and return it
successfully through the full-date sub-case: the Future Guard inherited from
parse_bounded_date rejects it there, and the whole parse surfaces the generic
catch-all failure. -/
theorem C1_counterexample :
    dateParse sFut = some ⟨2030, 1, 15⟩
      ∧ utcNanos ⟨⟨2030, 1, 15⟩, Time.maxTime, 0⟩ > envPast.now
      ∧ parse_response_string_to_datetime sFut .Utc envPast
          = some (.error (.parseError (.unsupported sFut))) :=
  ⟨by decide, by decide, by decide⟩

/-- Claim C1, amended: the full-date sub-case of parse_period does apply the
Future Guard (it calls parse_bounded_date with boundary End, guard included):
a ten-byte digit string of the shape YYYY-MM-DD that parses as a calendar
date whose end-of-day instant lies strictly after the current UTC clock fails
inside the full-date sub-case with the future-date error and then falls
through to the later grammars, surfacing the generic catch-all failure. -/
theorem C1_future_guard_applies (y1 y2 y3 y4 m1 m2 d1 d2 : Nat)
    (env : Env) (d : Date)
    (h1 : isDigit y1 = true) (h2 : isDigit y2 = true)
    (h3 : isDigit y3 = true) (h4 : isDigit y4 = true)
    (h5 : isDigit m1 = true) (h6 : isDigit m2 = true)
    (h7 : isDigit d1 = true) (h8 : isDigit d2 = true)
    (hp : dateParse [y1, y2, y3, y4, 45, m1, m2, 45, d1, d2] = some d)
    (hf : utcNanos ⟨d, Time.maxTime, 0⟩ > env.now) :
    parse_to_datetime [y1, y2, y3, y4, 45, m1, m2, 45, d1, d2] .End .Utc env
        = .error (.dateInFuture ⟨d, Time.maxTime, 0⟩ (ofUtcNanos env.now 0))
      ∧ parse_response_string_to_datetime
          [y1, y2, y3, y4, 45, m1, m2, 45, d1, d2] .Utc env
        = some (.error (.parseError
            (.unsupported [y1, y2, y3, y4, 45, m1, m2, 45, d1, d2]))) := by
  have he : parse_to_datetime [y1, y2, y3, y4, 45, m1, m2, 45, d1, d2] .End .Utc env
      = .error (.dateInFuture ⟨d, Time.maxTime, 0⟩ (ofUtcNanos env.now 0)) := by
    unfold parse_to_datetime
    rw [hp]
    dsimp only
    unfold validate_not_in_future
    rw [if_pos hf]
  exact ⟨he, fullDateShape_fallthrough y1 y2 y3 y4 m1 m2 d1 d2 .Utc env _
    h1 h2 h3 h4 h5 he⟩

/-- Claim C1, witness of the amended theorem at the input 2030-01-15 with the
clock at 2023-11-14T22:13:20Z. -/
theorem C1_witness :
    parse_to_datetime sFut .End .Utc envPast
        = .error (.dateInFuture ⟨⟨2030, 1, 15⟩, Time.maxTime, 0⟩
            (ofUtcNanos envPast.now 0))
      ∧ parse_response_string_to_datetime sFut .Utc envPast
        = some (.error (.parseError (.unsupported sFut))) :=
  C1_future_guard_applies 50 48 51 48 48 49 49 53 envPast ⟨2030, 1, 15⟩
    (by decide) (by decide) (by decide) (by decide) (by decide) (by decide)
    (by decide) (by decide) (by decide) (by decide)

/-- Claim C2, counterexample: the input 2025-02-30 matches the full-date
shape but fails calendar validity (February has no day 30); contrary to the
claim, this calendar-validity failure does fall through past the later
grammars and surfaces as the generic catch-all failure, not as the
malformed-input failure of the full-date grammar. -/
theorem C2_counterexample :
    Date.fromCalendarDate 2025 2 30 = none
      ∧ parse_response_string_to_datetime sFeb30 .Utc envNone
          = some (.error (.parseError (.unsupported sFeb30)))
      ∧ parse_response_string_to_datetime sFeb30 .Utc envNone
          ≠ some (.error (.invalidDateFormat sFeb30)) :=
  ⟨by decide, by decide, by decide⟩

/-- Claim C2, amended: in parse_period every failure of the full-date branch
falls through to the next grammar, calendar-validity failures included: a
ten-byte digit string of the shape YYYY-MM-DD on which Date::parse fails
(in particular a day invalid for the month and year) makes the full-date
branch fail with its malformed-input error and the whole parse surface the
generic catch-all failure. -/
theorem C2_calendar_invalid_falls_through (y1 y2 y3 y4 m1 m2 d1 d2 : Nat)
    (oty : OffsetType) (env : Env)
    (h1 : isDigit y1 = true) (h2 : isDigit y2 = true)
    (h3 : isDigit y3 = true) (h4 : isDigit y4 = true)
    (h5 : isDigit m1 = true) (h6 : isDigit m2 = true)
    (h7 : isDigit d1 = true) (h8 : isDigit d2 = true)
    (hp : dateParse [y1, y2, y3, y4, 45, m1, m2, 45, d1, d2] = none) :
    parse_to_datetime [y1, y2, y3, y4, 45, m1, m2, 45, d1, d2] .End oty env
        = .error (.invalidDateFormat [y1, y2, y3, y4, 45, m1, m2, 45, d1, d2])
      ∧ parse_response_string_to_datetime
          [y1, y2, y3, y4, 45, m1, m2, 45, d1, d2] oty env
        = some (.error (.parseError
            (.unsupported [y1, y2, y3, y4, 45, m1, m2, 45, d1, d2]))) := by
  have he : parse_to_datetime [y1, y2, y3, y4, 45, m1, m2, 45, d1, d2] .End oty env
      = .error (.invalidDateFormat [y1, y2, y3, y4, 45, m1, m2, 45, d1, d2]) := by
    unfold parse_to_datetime
    rw [hp]
  exact ⟨he, fullDateShape_fallthrough y1 y2 y3 y4 m1 m2 d1 d2 oty env _
    h1 h2 h3 h4 h5 he⟩

/-- Claim C2, witness of the amended theorem at the input 2025-02-30. -/
theorem C2_witness :
    parse_to_datetime sFeb30 .End .Utc envNone = .error (.invalidDateFormat sFeb30)
      ∧ parse_response_string_to_datetime sFeb30 .Utc envNone
        = some (.error (.parseError (.unsupported sFeb30))) :=
  C2_calendar_invalid_falls_through 50 48 50 53 48 50 51 48 .Utc envNone
    (by decide) (by decide) (by decide) (by decide) (by decide) (by decide)
    (by decide) (by decide) (by decide)

/-- Claim C3: the seven-byte input 2024- followed by the letter e with acute
accent drives parse_period into the quarter arm, where the byte slice of
range 5..6 falls on a UTF-8 continuation byte: byte index 6 is not a
character boundary and the Rust code panics (modelled by none) instead of
returning an error value, contradicting the total-function contract. -/
theorem C3_panic_on_non_ascii :
    sNonAscii.length = 7
      ∧ isCharBoundary sNonAscii 6 = false
      ∧ parse_response_string_to_datetime sNonAscii .Utc envNone = none :=
  ⟨by decide, by decide, by decide⟩

/-- Claim C4, counterexample: the input 2024xQ2 has no hyphen at position 4,
yet the quarter grammar of parse_period accepts it and returns April 1 of
2024, because the code checks only the total length, the Q at byte 5, the
i32 parse of bytes 0..4 and the u8 parse of byte 6. -/
theorem C4_counterexample :
    sQx.get? 4 = some 120
      ∧ parse_response_string_to_datetime sQx .Utc envNone
          = some (.ok ⟨⟨2024, 4, 1⟩, Time.midnight, 0⟩) :=
  ⟨by decide, by decide⟩

/-- Claim C4, amended: every string accepted via the quarter grammar has
total byte length exactly 7, the literal Q at byte index 5, bytes 0..3
parsing as a signed 32-bit year, and byte 6 a quarter digit whose value lies
in 1..=4; the byte at position 4 is not constrained to be a hyphen and the
year may carry a sign, so the shape YYYY-QN is not enforced beyond this. -/
theorem C4_quarter_shape (s : Str) (dt : OffsetDateTime)
    (h : quarterBranch s = some (.ok dt)) :
    s.length = 7
      ∧ strSlice s 5 6 = some [81]
      ∧ (∃ ys, strSlice s 0 4 = some ys ∧ parseI32 ys = some dt.date.year)
      ∧ (∃ qs q, strSlice s 6 7 = some qs ∧ parseU8 qs = some q
          ∧ 1 ≤ q ∧ q ≤ 4) := by
  have hq := quarterBranch_ok s dt h
  refine ⟨hq.1, hq.2.1, hq.2.2.1, ?_⟩
  obtain ⟨qs, q, h1, h2, h3, h4, _⟩ := hq.2.2.2.1
  exact ⟨qs, q, h1, h2, h3, h4⟩

/-- Claim C4, witness of the amended theorem at the accepted input 2024xQ2. -/
theorem C4_witness :
    quarterBranch sQx = some (.ok ⟨⟨2024, 4, 1⟩, Time.midnight, 0⟩)
      ∧ (sQx.length = 7
        ∧ strSlice sQx 5 6 = some [81]
        ∧ (∃ ys, strSlice sQx 0 4 = some ys ∧ parseI32 ys
            = some (⟨⟨2024, 4, 1⟩, Time.midnight, 0⟩ : OffsetDateTime).date.year)
        ∧ (∃ qs q, strSlice sQx 6 7 = some qs ∧ parseU8 qs = some q
            ∧ 1 ≤ q ∧ q ≤ 4)) :=
  ⟨by decide, C4_quarter_shape sQx ⟨⟨2024, 4, 1⟩, Time.midnight, 0⟩ (by decide)⟩

/-- Claim C5: once the full-date sub-case has failed, the rest of
parse_period never consults the offset mode: the results under Utc and under
Local are identical, and any successful result of the later grammars carries
a zero (UTC) offset. -/
theorem C5_later_grammars_ignore_offset_mode (s : Str) (env : Env)
    (e1 e2 : DateTimeError)
    (hu : parse_to_datetime s .End .Utc env = .error e1)
    (hl : parse_to_datetime s .End .Local env = .error e2) :
    parse_response_string_to_datetime s .Utc env
        = parse_response_string_to_datetime s .Local env
      ∧ (∀ oty dt, parse_response_string_to_datetime s oty env = some (.ok dt)
          → dt.offset = 0) := by
  constructor
  · unfold parse_response_string_to_datetime
    rw [hu, hl]
  · intro oty dt h
    unfold parse_response_string_to_datetime at h
    cases oty with
    | Utc =>
      rw [hu] at h
      exact afterFullDate_ok_offset s dt h
    | Local =>
      rw [hl] at h
      exact afterFullDate_ok_offset s dt h

/-- Claim C5, witness at the quarter input 2024-Q2 in an environment whose
local offset is -3600 seconds: both offset modes agree and the accepted
result has offset zero. -/
theorem C5_witness :
    parse_response_string_to_datetime sQ2 .Utc envM1
        = parse_response_string_to_datetime sQ2 .Local envM1
      ∧ (⟨⟨2024, 4, 1⟩, Time.midnight, 0⟩ : OffsetDateTime).offset = 0 :=
  ⟨(C5_later_grammars_ignore_offset_mode sQ2 envM1
      (.invalidDateFormat sQ2) (.invalidDateFormat sQ2) (by decide) (by decide)).1,
   (C5_later_grammars_ignore_offset_mode sQ2 envM1
      (.invalidDateFormat sQ2) (.invalidDateFormat sQ2) (by decide) (by decide)).2
     .Utc ⟨⟨2024, 4, 1⟩, Time.midnight, 0⟩ (by decide)⟩

/-- Claim C6, counterexample: for timestamp 0 in an environment whose local
offset is -18000 seconds (UTC-5), the Utc-mode instant projects to the
calendar date 1970-01-01 while the Local-mode instant projects to
1969-12-31: instant_to_date takes the date in the attached offset, so the
year, month and day differ between the two offset modes. -/
theorem C6_counterexample :
    timestamp_to_datetime 0 .Utc envM5 = .ok ⟨⟨1970, 1, 1⟩, Time.midnight, 0⟩
      ∧ timestamp_to_datetime 0 .Local envM5
          = .ok ⟨⟨1969, 12, 31⟩, ⟨19, 0, 0, 0⟩, -18000⟩
      ∧ datetime_to_date ⟨⟨1970, 1, 1⟩, Time.midnight, 0⟩ = .ok ⟨1970, 1, 1⟩
      ∧ datetime_to_date ⟨⟨1969, 12, 31⟩, ⟨19, 0, 0, 0⟩, -18000⟩
          = .ok ⟨1969, 12, 31⟩
      ∧ (⟨1970, 1, 1⟩ : Date) ≠ ⟨1969, 12, 31⟩ :=
  ⟨by decide, by decide, by decide, by decide, by decide⟩

/-- Claim C6, amended: the Instants produced by timestamp_to_instant under
Utc and under Local mode always denote the same point on the UTC timeline
(both equal the timestamp in nanoseconds); their CalendarDate projections are
taken in the attached offset and therefore agree only when the local-offset
shift does not cross a calendar-day boundary, in particular whenever the
resolved local offset is zero. -/
theorem C6_same_utc_instant (ts : Int) (env : Env) (dtU dtL : OffsetDateTime)
    (hu : timestamp_to_datetime ts .Utc env = .ok dtU)
    (hl : timestamp_to_datetime ts .Local env = .ok dtL) :
    utcNanos dtU = ts * 1000000000 ∧ utcNanos dtL = ts * 1000000000 := by
  unfold timestamp_to_datetime from_unix_timestamp at hu hl
  by_cases hr : -377705116800 ≤ ts ∧ ts ≤ 253402300799
  · rw [if_pos hr] at hu hl
    dsimp only at hu hl
    have hU : dtU = toOffset (ofUtcNanos (ts * 1000000000) 0) 0 :=
      (Except.ok.inj hu).symm
    constructor
    · rw [hU, utcNanos_toOffset, utcNanos_ofUtcNanos]
    · revert hl
      cases ho : env.localOff (utcNanos (toOffset (ofUtcNanos (ts * 1000000000) 0) 0)) with
      | none => intro hl; exact Except.noConfusion hl
      | some o =>
        intro hl
        have hL : dtL = toOffset (toOffset (ofUtcNanos (ts * 1000000000) 0) 0) o :=
          (Except.ok.inj hl).symm
        rw [hL, utcNanos_toOffset, utcNanos_toOffset, utcNanos_ofUtcNanos]
  · rw [if_neg hr] at hu
    exact Except.noConfusion hu

/-- Claim C6, witness of the amended theorem at timestamp 0 with local offset
-18000 seconds: both Instants sit at nanosecond 0 of the UTC timeline. -/
theorem C6_witness :
    utcNanos ⟨⟨1970, 1, 1⟩, Time.midnight, 0⟩ = 0 * 1000000000
      ∧ utcNanos ⟨⟨1969, 12, 31⟩, ⟨19, 0, 0, 0⟩, -18000⟩ = 0 * 1000000000 :=
  C6_same_utc_instant 0 envM5 ⟨⟨1970, 1, 1⟩, Time.midnight, 0⟩
    ⟨⟨1969, 12, 31⟩, ⟨19, 0, 0, 0⟩, -18000⟩ (by decide) (by decide)

theorem validate_match_ok (v : OffsetDateTime) (now : Int) (r : OffsetDateTime)
    (h : (match validate_not_in_future v now with
      | .error e => (.error e : Except DateTimeError OffsetDateTime)
      | .ok _ => .ok v) = .ok r) : utcNanos r ≤ now := by
  cases hv : validate_not_in_future v now with
  | error e =>
    rw [hv] at h
    exact Except.noConfusion h
  | ok u =>
    rw [hv] at h
    dsimp only at h
    rw [← Except.ok.inj h]
    exact validate_ok_le _ now u hv

/-- Claim C7: the Future Guard fails with the future-date error carrying both
the rejected value and the observed clock exactly when the resolved instant
lies strictly after the current UTC instant; an instant exactly equal to the
clock passes; and consequently every instant returned by parse_bounded_date
is at most the clock the guard observed. -/
theorem C7_future_guard_iff (dt : OffsetDateTime) (now : Int) :
    (utcNanos dt > now
        → validate_not_in_future dt now
            = .error (.dateInFuture dt (ofUtcNanos now 0)))
      ∧ (utcNanos dt ≤ now → validate_not_in_future dt now = .ok ())
      ∧ (validate_not_in_future dt now = .ok () → utcNanos dt ≤ now)
      ∧ (∀ s dty oty env r, parse_to_datetime s dty oty env = .ok r
          → utcNanos r ≤ env.now) := by
  refine ⟨?_, ?_, ?_, ?_⟩
  · intro h
    unfold validate_not_in_future
    rw [if_pos h]
  · intro h
    unfold validate_not_in_future
    rw [if_neg (by omega)]
  · exact validate_ok_le dt now ()
  · intro s dty oty env r h
    unfold parse_to_datetime at h
    cases hp : dateParse s with
    | none =>
      rw [hp] at h
      exact Except.noConfusion h
    | some d =>
      rw [hp] at h
      cases dty with
      | Start =>
        cases oty with
        | Utc =>
          dsimp only at h
          exact validate_match_ok _ env.now r h
        | Local =>
          dsimp only at h
          cases ho : env.localOff (utcNanos ⟨d, Time.midnight, 0⟩) with
          | none =>
            rw [ho] at h
            exact Except.noConfusion h
          | some o =>
            rw [ho] at h
            dsimp only at h
            exact validate_match_ok _ env.now r h
      | End =>
        cases oty with
        | Utc =>
          dsimp only at h
          exact validate_match_ok _ env.now r h
        | Local =>
          dsimp only at h
          cases ho : env.localOff (utcNanos ⟨d, Time.maxTime, 0⟩) with
          | none =>
            rw [ho] at h
            exact Except.noConfusion h
          | some o =>
            rw [ho] at h
            dsimp only at h
            exact validate_match_ok _ env.now r h

/-- Claim C7, witness: the instant 2020-01-01T00:00:00Z compared against a
clock reading exactly the same nanosecond passes the guard. -/
theorem C7_witness :
    utcNanos ⟨⟨2020, 1, 1⟩, Time.midnight, 0⟩ = 1577836800000000000
      ∧ validate_not_in_future ⟨⟨2020, 1, 1⟩, Time.midnight, 0⟩
          1577836800000000000 = .ok () :=
  ⟨by decide,
   (C7_future_guard_iff ⟨⟨2020, 1, 1⟩, Time.midnight, 0⟩
      1577836800000000000).2.1 (by decide)⟩

/-- Claim C8, counterexample: under Local offset mode with a resolved local
offset of -3600 seconds, parse_bounded_date of 2020-01-05 with boundary Start
succeeds but returns an Instant whose time-of-day field is 23:00:00 of the
previous day, not midnight: the boundary time is exact only in the attached
offset zero of Utc mode. -/
theorem C8_counterexample :
    parse_to_datetime sJan5 .Start .Local envM1
        = .ok ⟨⟨2020, 1, 4⟩, ⟨23, 0, 0, 0⟩, -3600⟩
      ∧ (⟨23, 0, 0, 0⟩ : Time) ≠ Time.midnight :=
  ⟨by decide, by decide⟩

/-- Claim C8, amended: for every string accepted by the full-date grammar,
parse_bounded_date with offset mode Utc and boundary Start returns the parsed
date with time-of-day exactly midnight, and with boundary End exactly
23:59:59.999999999 (provided the instant is not rejected by the Future
Guard); under Local mode the same UTC instant is returned but its time-of-day
field is shifted by the resolved local offset. -/
theorem C8_boundary_times_utc (s : Str) (d : Date) (env : Env)
    (hp : dateParse s = some d) :
    (utcNanos ⟨d, Time.midnight, 0⟩ ≤ env.now
        → parse_to_datetime s .Start .Utc env = .ok ⟨d, Time.midnight, 0⟩)
      ∧ (utcNanos ⟨d, Time.maxTime, 0⟩ ≤ env.now
        → parse_to_datetime s .End .Utc env = .ok ⟨d, Time.maxTime, 0⟩) := by
  constructor <;>
    · intro h
      unfold parse_to_datetime
      rw [hp]
      dsimp only
      unfold validate_not_in_future
      rw [if_neg (by omega)]

/-- Claim C8, witness of the amended theorem at the input 2020-01-05. -/
theorem C8_witness :
    parse_to_datetime sJan5 .Start .Utc envNone
        = .ok ⟨⟨2020, 1, 5⟩, Time.midnight, 0⟩
      ∧ parse_to_datetime sJan5 .End .Utc envNone
        = .ok ⟨⟨2020, 1, 5⟩, Time.maxTime, 0⟩ :=
  ⟨(C8_boundary_times_utc sJan5 ⟨2020, 1, 5⟩ envNone (by decide)).1 (by decide),
   (C8_boundary_times_utc sJan5 ⟨2020, 1, 5⟩ envNone (by decide)).2 (by decide)⟩

/-- Claim C9: for inputs that reach the quarter grammar (the full-date branch
failed and the year-month guard did not capture the input), every accepted
result is day 1 of the starting month of the quarter at midnight under the
mapping Q1 to January, Q2 to April, Q3 to July, Q4 to October; and an input
passing the length, Q, year and quarter-digit parses whose quarter value lies
outside 1..=4 fails with the explicit component-validation error
InvalidTimeComponent, not with the generic catch-all. -/
theorem C9_quarter_semantics (s : Str) (oty : OffsetType) (env : Env)
    (e : DateTimeError)
    (he : parse_to_datetime s .End oty env = .error e)
    (hym : ∀ ys ms, splitOnce s 45 = some (ys, ms)
      → parseI32 ys = none ∨ parseU8 ms = none) :
    (∀ dt, parse_response_string_to_datetime s oty env = some (.ok dt)
        → dt.date.day = 1 ∧ dt.time = Time.midnight
          ∧ ∃ qs q, strSlice s 6 7 = some qs ∧ parseU8 qs = some q
              ∧ 1 ≤ q ∧ q ≤ 4 ∧ dt.date.month = quarterStartMonth q)
      ∧ (∀ ys y qs q, s.length = 7 → strSlice s 5 6 = some [81]
          → strSlice s 0 4 = some ys → parseI32 ys = some y
          → strSlice s 6 7 = some qs → parseU8 qs = some q
          → ¬(1 ≤ q ∧ q ≤ 4)
          → parse_response_string_to_datetime s oty env
              = some (.error (.invalidTimeComponent q))) := by
  have hbr : parse_response_string_to_datetime s oty env = quarterBranch s := by
    unfold parse_response_string_to_datetime
    rw [he]
    dsimp only
    exact afterFullDate_eq_quarterBranch s hym
  constructor
  · intro dt h
    rw [hbr] at h
    have hq := quarterBranch_ok s dt h
    exact ⟨hq.2.2.2.2.1, hq.2.2.2.2.2.1, hq.2.2.2.1⟩
  · intro ys y qs q hlen h56 h04 hy h67 hq hnq
    rw [hbr]
    unfold quarterBranch
    rw [if_pos hlen, h56]
    dsimp only
    rw [if_pos rfl, h04]
    dsimp only
    rw [hy]
    dsimp only
    rw [h67]
    dsimp only
    rw [hq]
    dsimp only
    rw [if_neg (by omega), if_neg (by omega), if_neg (by omega), if_neg (by omega)]

/-- Claim C9, witness: the accepted input 2024-Q2 yields April 1 at midnight,
and the input 2024-Q5 with quarter digit 5 fails with InvalidTimeComponent. -/
theorem C9_witness :
    parse_response_string_to_datetime sQ2 .Utc envNone
        = some (.ok ⟨⟨2024, 4, 1⟩, Time.midnight, 0⟩)
      ∧ ((⟨⟨2024, 4, 1⟩, Time.midnight, 0⟩ : OffsetDateTime).date.day = 1
        ∧ (⟨⟨2024, 4, 1⟩, Time.midnight, 0⟩ : OffsetDateTime).time = Time.midnight
        ∧ ∃ qs q, strSlice sQ2 6 7 = some qs ∧ parseU8 qs = some q
            ∧ 1 ≤ q ∧ q ≤ 4
            ∧ (⟨⟨2024, 4, 1⟩, Time.midnight, 0⟩ : OffsetDateTime).date.month
                = quarterStartMonth q)
      ∧ parse_response_string_to_datetime sQ5 .Utc envNone
        = some (.error (.invalidTimeComponent 5)) :=
  ⟨by decide,
   (C9_quarter_semantics sQ2 .Utc envNone (.invalidDateFormat sQ2) (by decide)
      (by
        intro ys ms h
        have h' : some (([50, 48, 50, 52] : Str), ([81, 50] : Str))
            = some (ys, ms) := h
        injection h' with hpair
        injection hpair with hy hm
        subst hy
        subst hm
        exact Or.inr (by decide))).1
     ⟨⟨2024, 4, 1⟩, Time.midnight, 0⟩ (by decide),
   (C9_quarter_semantics sQ5 .Utc envNone (.invalidDateFormat sQ5) (by decide)
      (by
        intro ys ms h
        have h' : some (([50, 48, 50, 52] : Str), ([81, 53] : Str))
            = some (ys, ms) := h
        injection h' with hpair
        injection hpair with hy hm
        subst hy
        subst hm
        exact Or.inr (by decide))).2
     [50, 48, 50, 52] 2024 [53] 5 (by decide) (by decide) (by decide) (by decide)
     (by decide) (by decide) (by omega)⟩

/-- Claim C10: for inputs reaching the year-month grammar with a year parsing
as an i32 and a month parsing as a u8, a month value outside 1..=12 fails
with the malformed-input error InvalidDateFormat (no clamping or wrapping),
and every accepted result has day 1 (with the parsed month and year, at
midnight). -/
theorem C10_year_month_validation (s : Str) (oty : OffsetType) (env : Env)
    (e : DateTimeError) (ys ms : Str) (y m : Int)
    (he : parse_to_datetime s .End oty env = .error e)
    (hsp : splitOnce s 45 = some (ys, ms))
    (hy : parseI32 ys = some y) (hm : parseU8 ms = some m) :
    (¬(1 ≤ m ∧ m ≤ 12) → parse_response_string_to_datetime s oty env
        = some (.error (.invalidDateFormat s)))
      ∧ (∀ dt, parse_response_string_to_datetime s oty env = some (.ok dt)
        → dt.date.day = 1 ∧ dt.date.month = m ∧ dt.date.year = y
          ∧ dt.time = Time.midnight) := by
  have hbr : parse_response_string_to_datetime s oty env = some (ymBranch s y m) := by
    unfold parse_response_string_to_datetime
    rw [he]
    dsimp only
    unfold afterFullDate
    rw [hsp]
    dsimp only
    rw [hy, hm]
  constructor
  · intro hnm
    rw [hbr]
    unfold ymBranch
    rw [if_neg hnm]
  · intro dt h
    rw [hbr] at h
    have hb := ymBranch_ok s y m dt (Option.some.inj h)
    exact ⟨hb.2.2.1, hb.2.1, hb.1, hb.2.2.2.1⟩

/-- Claim C10, witness: the input 2024-13 fails with InvalidDateFormat and
the accepted input 2024-05 yields day 1 of May 2024 at midnight. -/
theorem C10_witness :
    parse_response_string_to_datetime sYm13 .Utc envNone
        = some (.error (.invalidDateFormat sYm13))
      ∧ parse_response_string_to_datetime sYm05 .Utc envNone
        = some (.ok ⟨⟨2024, 5, 1⟩, Time.midnight, 0⟩)
      ∧ ((⟨⟨2024, 5, 1⟩, Time.midnight, 0⟩ : OffsetDateTime).date.day = 1
        ∧ (⟨⟨2024, 5, 1⟩, Time.midnight, 0⟩ : OffsetDateTime).date.month = 5
        ∧ (⟨⟨2024, 5, 1⟩, Time.midnight, 0⟩ : OffsetDateTime).date.year = 2024
        ∧ (⟨⟨2024, 5, 1⟩, Time.midnight, 0⟩ : OffsetDateTime).time = Time.midnight) :=
  ⟨(C10_year_month_validation sYm13 .Utc envNone (.invalidDateFormat sYm13)
      [50, 48, 50, 52] [49, 51] 2024 13 (by decide) (by decide) (by decide)
      (by decide)).1 (by omega),
   by decide,
   (C10_year_month_validation sYm05 .Utc envNone (.invalidDateFormat sYm05)
      [50, 48, 50, 52] [48, 53] 2024 5 (by decide) (by decide) (by decide)
      (by decide)).2 ⟨⟨2024, 5, 1⟩, Time.midnight, 0⟩ (by decide)⟩

end DateUtils
